import Mathlib

/-!
Formal model of the query-routing and document-analysis pipeline of the
AI-agent system (backend/agents/orchestrator.py and
backend/agents/research_agent.py).

The Python code calls external capabilities (an LLM for classification and
generation, an embedding model, a Chroma vector store, and PDF/DOCX text
extraction).  These are modelled as oracle functions collected in a `Caps`
structure; a capability call that can raise a Python exception is modelled
as returning `Except PyError`.  Each agent method is translated into a pure
Lean function over an explicit agent state; besides its result it returns
the ordered list of capability calls it made (`List Call`), so that
properties of the form "invokes / does not invoke capability X with input Y"
become statements about that trace.
-/

/-- Python exceptions that the modelled capability calls can raise. -/
inductive PyError where
  | generationFailure (msg : String)
  | retrievalUnavailable (msg : String)
  | attributeError (msg : String)
  | other (msg : String)
  deriving DecidableEq, Repr

/-- Rendering of an exception as Python `str(e)` inside an f-string. -/
def errString : PyError → String
  | .generationFailure m => m
  | .retrievalUnavailable m => m
  | .attributeError m => m
  | .other m => m

/-- The Chroma vector store handle held in `self.vector_db`: either an index
built by `Chroma.from_documents` from a chunk list, or one reopened from the
persisted directory in `ResearchAgent.__init__` (whose contents are unknown). -/
inductive ChromaIndex where
  | built (docs : List String)
  | loaded
  deriving DecidableEq, Repr

/-- The mutable fields of a `ResearchAgent` instance: `self.vector_db` and
`self.docs` (the list of chunk page contents). -/
structure ResearchAgentState where
  vector_db : Option ChromaIndex
  docs : List String
  deriving DecidableEq, Repr

/-- The dictionaries returned by the agent methods, with the Python keys
type and message. -/
structure AgentReply where
  rtype : String
  message : String
  deriving DecidableEq, Repr

/-- The destination enum of the orchestrator's `RouteQuery` schema.  Per the
collaborator contract (spec section 6) the schema-constrained generation
capability either fails observably or returns a value satisfying the schema,
so a successful top-level classification yields exactly one of these. -/
inductive RouteDest where
  | data
  | research
  deriving DecidableEq, Repr

/-- The string held in `RouteQuery.destination`. -/
def destString : RouteDest → String
  | .data => "data"
  | .research => "research"

/-- A record of one external capability invocation, with its inputs. -/
inductive Call where
  | classifyResearch (query : String)
  | classifyRoute (query : String)
  | mapReduceSummarize (docs : List String)
  | generateText (context : String)
  | generateKeywords (context : String)
  | retrieveAnswer (index : ChromaIndex) (question : String)
  | extractPdf (path : String)
  | extractDocx (path : String)
  | embedIndex (docs : List String)
  deriving DecidableEq, Repr

/-- The external capabilities, as oracle functions.  `classifyResearch`
returns the raw `category` string of the `ResearchQueryType` schema (the code
compares it against literals with an else-fallback, so arbitrary strings are
handled); `classifyRoute` returns the `RouteQuery` destination enum;
`splitText` is `RecursiveCharacterTextSplitter.create_documents` (a pure
library function, abstracted); `embedIndex` is the embed-and-index step of
`Chroma.from_documents`. -/
structure Caps where
  classifyResearch : String → Except PyError String
  classifyRoute : String → Except PyError RouteDest
  mapReduceSummarize : List String → Except PyError String
  generateText : String → Except PyError String
  generateKeywords : String → Except PyError (List String)
  retrieveAnswer : ChromaIndex → String → Except PyError String
  extractPdf : String → Except PyError String
  extractDocx : String → Except PyError String
  splitText : String → List String
  embedIndex : List String → Except PyError Unit

/-- Characters removed by Python `str.strip()` with no arguments
(ASCII whitespace; the model's stand-in for Python str whitespace). -/
def isPySpace (c : Char) : Bool :=
  c == ' ' || c == '\t' || c == '\n' || c == '\r' || c == '\x0b' || c == '\x0c'

/-- Python `not full_text.strip()`: true iff the string is empty or consists
only of whitespace. -/
def pyStripEmpty (s : String) : Bool :=
  s.toList.all isPySpace

/-- `ResearchAgent.__init__`: `self.vector_db` is `None` unless the persist
directory `backend/vector_store` already exists on disk, in which case the
persisted Chroma store is reopened; `self.docs` starts empty either way. -/
def initAgent (persistDirectoryExists : Bool) : ResearchAgentState :=
  { vector_db := if persistDirectoryExists then some ChromaIndex.loaded else none,
    docs := [] }

/-- `ResearchAgent.summarize_paper`: runs the map-reduce summarize chain over
`self.docs` with no empty-corpus guard. -/
def summarize_paper (caps : Caps) (st : ResearchAgentState) :
    Except PyError AgentReply × List Call :=
  ((caps.mapReduceSummarize st.docs).map fun s => ⟨"text", s⟩,
   [Call.mapReduceSummarize st.docs])

/-- `ResearchAgent.summarize_abstract`: guard on empty `self.docs`, then a
single generation call over `self.docs[0].page_content` only. -/
def summarize_abstract (caps : Caps) (st : ResearchAgentState) :
    Except PyError AgentReply × List Call :=
  match st.docs with
  | [] => (Except.ok ⟨"text", "No document content available."⟩, [])
  | d0 :: _ =>
    ((caps.generateText d0).map fun r => ⟨"text", r⟩, [Call.generateText d0])

/-- `ResearchAgent.extract_keywords`: guard on empty `self.docs`, then a
schema-constrained generation call over the space-join of the first four
chunks; the returned keyword list is rendered comma-joined. -/
def extract_keywords (caps : Caps) (st : ResearchAgentState) :
    Except PyError AgentReply × List Call :=
  match st.docs with
  | [] => (Except.ok ⟨"text", "No document content available."⟩, [])
  | _ :: _ =>
    let ctx := String.intercalate " " (st.docs.take 4)
    ((caps.generateKeywords ctx).map fun ks => ⟨"text", String.intercalate ", " ks⟩,
     [Call.generateKeywords ctx])

/-- `ResearchAgent.answer_question`: builds a retrieval chain over
`self.vector_db` (raising `AttributeError` if it is `None`) and invokes it
with the question and an empty chat history. -/
def answer_question (caps : Caps) (st : ResearchAgentState) (question : String) :
    Except PyError AgentReply × List Call :=
  match st.vector_db with
  | none =>
    (Except.error (PyError.attributeError "NoneType has no attribute as_retriever"), [])
  | some idx =>
    ((caps.retrieveAnswer idx question).map fun a => ⟨"text", a⟩,
     [Call.retrieveAnswer idx question])

/-- `ResearchAgent.handle_query`: short-circuits when `self.vector_db` is
`None`; otherwise classifies the query and dispatches.  The Python `try`
block encloses both the classification call and the dispatched strategy
call, and its `except` falls back to `answer_question`, so an exception from
either one reaches the fallback. -/
def handle_query (caps : Caps) (st : ResearchAgentState) (query : String) :
    Except PyError AgentReply × List Call :=
  match st.vector_db with
  | none => (Except.ok ⟨"text", "No document has been ingested yet."⟩, [])
  | some _ =>
    match caps.classifyResearch query with
    | .error _ =>
      let fb := answer_question caps st query
      (fb.1, Call.classifyResearch query :: fb.2)
    | .ok cat =>
      let dispatched :=
        if cat = "summary" then summarize_paper caps st
        else if cat = "keywords" then extract_keywords caps st
        else if cat = "abstract" then summarize_abstract caps st
        else answer_question caps st query
      match dispatched.1 with
      | .ok reply => (Except.ok reply, Call.classifyResearch query :: dispatched.2)
      | .error _ =>
        let fb := answer_question caps st query
        (fb.1, Call.classifyResearch query :: (dispatched.2 ++ fb.2))

/-- The part of `ResearchAgent.ingest_document` after successful text
extraction: the empty-text guard, then chunking (which assigns `self.docs`),
then embedding and indexing (which assigns `self.vector_db` on success).
Returns the outcome of the `try` body together with the agent state as
mutated so far and the capability-call trace. -/
def ingestAfterExtract (caps : Caps) (st : ResearchAgentState) (t : String)
    (calls : List Call) :
    Except PyError AgentReply × ResearchAgentState × List Call :=
  if pyStripEmpty t then
    (Except.ok ⟨"text", "The document is empty."⟩, st, calls)
  else
    let docs := caps.splitText t
    let st1 := { st with docs := docs }
    match caps.embedIndex docs with
    | .error e => (Except.error e, st1, calls ++ [Call.embedIndex docs])
    | .ok _ =>
      (Except.ok ⟨"text", "Document ingested and ready for analysis."⟩,
       { st1 with vector_db := some (ChromaIndex.built docs) },
       calls ++ [Call.embedIndex docs])

/-- The `try` body of `ResearchAgent.ingest_document`: dispatch on the file
type tag, extract text, then continue with `ingestAfterExtract`.  An
unsupported type tag returns before any extraction. -/
def ingestBody (caps : Caps) (st : ResearchAgentState) (path ftype : String) :
    Except PyError AgentReply × ResearchAgentState × List Call :=
  if ftype = "pdf" then
    match caps.extractPdf path with
    | .error e => (Except.error e, st, [Call.extractPdf path])
    | .ok t => ingestAfterExtract caps st t [Call.extractPdf path]
  else if ftype = "docx" then
    match caps.extractDocx path with
    | .error e => (Except.error e, st, [Call.extractDocx path])
    | .ok t => ingestAfterExtract caps st t [Call.extractDocx path]
  else
    (Except.ok ⟨"text", "Unsupported file type."⟩, st, [])

/-- `ResearchAgent.ingest_document`: the whole body is wrapped in a
`try/except Exception` that converts any raised exception into a text reply,
keeping whatever state mutations had already happened. -/
def ingest_document (caps : Caps) (st : ResearchAgentState) (path ftype : String) :
    AgentReply × ResearchAgentState × List Call :=
  match ingestBody caps st path ftype with
  | (.ok r, st1, calls) => (r, st1, calls)
  | (.error e, st1, calls) =>
    (⟨"text", "Error ingesting the document: " ++ errString e⟩, st1, calls)

/-- `OrchestrationAgent.route_query`: one classification call inside a
`try/except` that defaults to the research agent. -/
def route_query (caps : Caps) (query : String) : String × List Call :=
  match caps.classifyRoute query with
  | .ok d => (destString d, [Call.classifyRoute query])
  | .error _ => ("research", [Call.classifyRoute query])

/-- Modelled from the spec: the Text Chunker of spec section 4.1, whose
implementation (langchain RecursiveCharacterTextSplitter) is not under src/.
Splits a text into chunks of at most 1000 characters such that consecutive
chunks overlap by exactly 100 characters, per the section 4.1 contract with
the recommended defaults max_size = 1000, overlap = 100. -/
def chunkDoc (T : List Char) : List (List Char) :=
  if T.length ≤ 1000 then [T]
  else T.take 1000 :: chunkDoc (T.drop 900)
termination_by T.length
decreasing_by simp [List.length_drop]; omega

/-- Concatenation of a chunk list with the overlaps removed: the first chunk
whole, every later chunk with its first 100 characters (the overlap with its
predecessor) dropped. -/
def reassemble : List (List Char) → List Char
  | [] => []
  | c :: rest => c ++ (rest.map (List.drop 100)).flatten

/-- The section 8 chunker property, at the fixed parameters
max_size = 1000, overlap = 100: bounded chunk size, exact overlap between
consecutive chunks, exact reconstruction, and minimality of the chunk count
among all bounded-size chunkings that reassemble to the same text. -/
def ChunkerSpec (T : List Char) : Prop :=
  (∀ c ∈ chunkDoc T, c.length ≤ 1000) ∧
  List.Chain' (fun a b => a.length = 1000 ∧ a.drop 900 = b.take 100) (chunkDoc T) ∧
  reassemble (chunkDoc T) = T ∧
  (∀ L : List (List Char), L ≠ [] → (∀ c ∈ L, c.length ≤ 1000) →
    reassemble L = T → (chunkDoc T).length ≤ L.length)

/-- A stub capability set in which every oracle succeeds with a fixed
answer; used as the base point for the concrete scenarios below. -/
def stubCaps : Caps where
  classifyResearch := fun _ => Except.ok "question"
  classifyRoute := fun _ => Except.ok RouteDest.research
  mapReduceSummarize := fun _ => Except.ok "MAPRED"
  generateText := fun t => Except.ok t
  generateKeywords := fun _ => Except.ok ["k1", "k2"]
  retrieveAnswer := fun _ _ => Except.ok "ANSWER"
  extractPdf := fun _ => Except.ok "hello world"
  extractDocx := fun _ => Except.ok "hello world"
  splitText := fun t => [t]
  embedIndex := fun _ => Except.ok ()

/-- Capabilities for the handle_query scenario of claim C1: classification
succeeds with category summary, the map-reduce summarize call raises a
generation failure, and retrieval-based question answering succeeds. -/
def capsSummaryFails : Caps :=
  { stubCaps with
    classifyResearch := fun _ => Except.ok "summary"
    mapReduceSummarize := fun _ => Except.error (PyError.generationFailure "boom")
    retrieveAnswer := fun _ _ => Except.ok "FALLBACK" }

/-- Capabilities whose embed-and-index step is unavailable. -/
def capsIndexDown : Caps :=
  { stubCaps with
    embedIndex := fun _ => Except.error (PyError.retrievalUnavailable "down") }

/-- Capabilities whose extraction yields whitespace-only text. -/
def capsBlankDoc : Caps :=
  { stubCaps with
    extractPdf := fun _ => Except.ok "  \n\t "
    extractDocx := fun _ => Except.ok "  \n\t " }

/-- Capabilities whose top-level routing classification raises. -/
def capsRouteDown : Caps :=
  { stubCaps with
    classifyRoute := fun _ => Except.error (PyError.other "llm down") }

/-- An agent state holding a previously ingested one-chunk document. -/
def stOldDoc : ResearchAgentState :=
  { vector_db := some (ChromaIndex.built ["OLD"]), docs := ["OLD"] }

/-- An agent state with an ingested document consisting of one chunk. -/
def stOneChunk : ResearchAgentState :=
  { vector_db := some (ChromaIndex.built ["D"]), docs := ["D"] }

/-- An agent state with a reopened persisted index but no chunk contents,
as produced by `__init__` when the persist directory exists on disk. -/
def stLoadedEmpty : ResearchAgentState :=
  { vector_db := some ChromaIndex.loaded, docs := [] }

instance {ε α : Type} [DecidableEq ε] [DecidableEq α] : DecidableEq (Except ε α) :=
  fun a b =>
    match a, b with
    | .ok x, .ok y =>
      if h : x = y then isTrue (by rw [h]) else isFalse (by intro hc; cases hc; exact h rfl)
    | .error x, .error y =>
      if h : x = y then isTrue (by rw [h]) else isFalse (by intro hc; cases hc; exact h rfl)
    | .ok _, .error _ => isFalse (by intro hc; cases hc)
    | .error _, .ok _ => isFalse (by intro hc; cases hc)

theorem chunkDoc_eq_of_le (T : List Char) (h : T.length ≤ 1000) : chunkDoc T = [T] := by
  rw [chunkDoc]
  simp [h]

theorem chunkDoc_eq_of_gt (T : List Char) (h : 1000 < T.length) :
    chunkDoc T = T.take 1000 :: chunkDoc (T.drop 900) := by
  conv_lhs => rw [chunkDoc]
  rw [if_neg (by omega)]

theorem chunkDoc_head (T : List Char) : (chunkDoc T).head? = some (T.take 1000) := by
  rcases le_or_lt T.length 1000 with h | h
  · rw [chunkDoc_eq_of_le T h]
    simp [List.take_of_length_le h]
  · rw [chunkDoc_eq_of_gt T h]
    simp

theorem chunkDoc_ne_nil (T : List Char) : chunkDoc T ≠ [] := by
  rcases le_or_lt T.length 1000 with h | h
  · rw [chunkDoc_eq_of_le T h]; simp
  · rw [chunkDoc_eq_of_gt T h]; simp

theorem chunkDoc_size (T : List Char) : ∀ c ∈ chunkDoc T, c.length ≤ 1000 := by
  induction T using chunkDoc.induct with
  | case1 T h =>
    rw [chunkDoc_eq_of_le T h]
    intro c hc
    rw [List.mem_singleton] at hc
    rw [hc]
    exact h
  | case2 T h ih =>
    rw [chunkDoc_eq_of_gt T (by omega)]
    intro c hc
    rcases List.mem_cons.mp hc with rfl | hc
    · simp [List.length_take]
    · exact ih c hc

theorem chunkDoc_chain (T : List Char) :
    List.Chain' (fun a b => a.length = 1000 ∧ a.drop 900 = b.take 100) (chunkDoc T) := by
  induction T using chunkDoc.induct with
  | case1 T h =>
    rw [chunkDoc_eq_of_le T h]
    exact List.chain'_singleton T
  | case2 T h ih =>
    rw [chunkDoc_eq_of_gt T (by omega)]
    rw [List.chain'_cons']
    refine ⟨?_, ih⟩
    intro b hb
    rw [chunkDoc_head] at hb
    rw [Option.mem_some_iff] at hb
    subst hb
    constructor
    · simp [List.length_take]
      omega
    · rw [List.take_take, List.drop_take]
      norm_num

theorem reassemble_chunkDoc (T : List Char) : reassemble (chunkDoc T) = T := by
  induction T using chunkDoc.induct with
  | case1 T h =>
    rw [chunkDoc_eq_of_le T h]
    simp [reassemble]
  | case2 T h ih =>
    have hgt : 1000 < T.length := by omega
    rw [chunkDoc_eq_of_gt T hgt]
    obtain ⟨t, ht⟩ : ∃ t, chunkDoc (T.drop 900) = (T.drop 900).take 1000 :: t := by
      have hh := chunkDoc_head (T.drop 900)
      cases hc : chunkDoc (T.drop 900) with
      | nil => exact absurd hc (chunkDoc_ne_nil _)
      | cons a t =>
        rw [hc] at hh
        simp only [List.head?_cons, Option.some.injEq] at hh
        exact ⟨t, by rw [hh]⟩
    rw [ht] at ih ⊢
    simp only [reassemble, List.map_cons, List.flatten_cons] at ih ⊢
    have hdt : (T.take 1000).drop 900 = (T.drop 900).take 100 := by
      rw [List.drop_take]
    have h100 : ((T.drop 900).take 1000).take 100 = (T.drop 900).take 100 := by
      simp [List.take_take]
    have hsplit : T.take 1000 = T.take 900 ++ ((T.drop 900).take 1000).take 100 := by
      rw [h100, ← hdt]
      have h900 : T.take 900 = (T.take 1000).take 900 := by simp [List.take_take]
      rw [h900, List.take_append_drop]
    have key : ((T.drop 900).take 1000).take 100 ++ (((T.drop 900).take 1000).drop 100
        ++ (t.map (List.drop 100)).flatten)
        = (T.drop 900).take 1000 ++ (t.map (List.drop 100)).flatten := by
      rw [← List.append_assoc, List.take_append_drop]
    rw [hsplit, List.append_assoc, key, ih, List.take_append_drop]

theorem flatten_drop_le (rest : List (List Char)) (h : ∀ c ∈ rest, c.length ≤ 1000) :
    ((rest.map (List.drop 100)).flatten).length ≤ 900 * rest.length := by
  induction rest with
  | nil => simp
  | cons x xs ih =>
    simp only [List.map_cons, List.flatten_cons, List.length_append, List.length_cons,
      List.length_drop]
    have hx : x.length ≤ 1000 := h x (List.mem_cons_self x xs)
    have hxs := ih (fun c hc => h c (List.mem_cons_of_mem x hc))
    omega

theorem reassemble_length_le (L : List (List Char)) (h : ∀ c ∈ L, c.length ≤ 1000) :
    (reassemble L).length ≤ 100 + 900 * L.length := by
  cases L with
  | nil => simp [reassemble]
  | cons c rest =>
    have hjoin := flatten_drop_le rest (fun x hx => h x (List.mem_cons_of_mem c hx))
    have hc : c.length ≤ 1000 := h c (List.mem_cons_self c rest)
    simp only [reassemble, List.length_append, List.length_cons]
    omega

theorem chunkDoc_count_le (S : List Char) :
    ∀ n, 1 ≤ n → S.length ≤ 100 + 900 * n → (chunkDoc S).length ≤ n := by
  induction S using chunkDoc.induct with
  | case1 S h =>
    intro n h1 _
    rw [chunkDoc_eq_of_le S h]
    simpa using h1
  | case2 S h ih =>
    intro n h1 h2
    rw [chunkDoc_eq_of_gt S (by omega)]
    simp only [List.length_cons]
    have hn2 : 2 ≤ n := by omega
    have hrec := ih (n - 1) (by omega) (by simp [List.length_drop]; omega)
    omega

theorem chunkDoc_minimal (T : List Char) (L : List (List Char)) (hL : L ≠ [])
    (hsize : ∀ c ∈ L, c.length ≤ 1000) (hre : reassemble L = T) :
    (chunkDoc T).length ≤ L.length := by
  have h1 := reassemble_length_le L hsize
  rw [hre] at h1
  exact chunkDoc_count_le T L.length (List.length_pos.mpr hL) h1

/-- Claim C7: for every non-empty text chunked with max_size 1000 and
overlap 100, every chunk has length at most 1000, consecutive chunks overlap
by exactly 100 characters (every non-final chunk has length exactly 1000 and
its last 100 characters equal the next chunk's first 100), concatenating the
chunks with the overlaps removed reproduces the text exactly, and the number
of chunks is minimal among all chunkings into pieces of length at most 1000
that reassemble to the same text. -/
theorem chunker_spec (T : List Char) (hT : T ≠ []) : ChunkerSpec T :=
  ⟨chunkDoc_size T, chunkDoc_chain T, reassemble_chunkDoc T, chunkDoc_minimal T⟩

/-- Witness for chunker_spec at the concrete text abc. -/
theorem chunker_spec_witness :
    (['a', 'b', 'c'] : List Char) ≠ [] ∧ ChunkerSpec ['a', 'b', 'c'] :=
  ⟨by decide, chunker_spec ['a', 'b', 'c'] (by decide)⟩

/-- Claim C6: route_query never raises and, for every input, returns exactly
one of the labels data or research; whenever the underlying classification
capability errors, it returns research. -/
theorem route_query_never_raises (caps : Caps) (q : String) :
    ((route_query caps q).1 = "data" ∨ (route_query caps q).1 = "research") ∧
    (∀ e, caps.classifyRoute q = Except.error e → (route_query caps q).1 = "research") := by
  constructor
  · unfold route_query
    cases hcr : caps.classifyRoute q with
    | ok d => cases d <;> simp [destString]
    | error e => simp
  · intro e he
    unfold route_query
    rw [he]

/-- Witness for route_query_never_raises: with a classification capability
that raises, routing returns research. -/
theorem route_query_never_raises_witness :
    capsRouteDown.classifyRoute "hi" = Except.error (PyError.other "llm down") ∧
    (route_query capsRouteDown "hi").1 = "research" :=
  ⟨rfl, (route_query_never_raises capsRouteDown "hi").2 (PyError.other "llm down") rfl⟩

/-- Counterexample to claim C3 as stated: on an agent constructed while the
persisted vector-store directory exists, handle_query called before any
ingest_document call classifies the query (a generation-capability call, so
the trace is non-empty) and answers it, instead of returning the
no-document message. -/
theorem handle_query_persisted_counterexample :
    (handle_query stubCaps (initAgent true) "hello").2 ≠ [] ∧
    (handle_query stubCaps (initAgent true) "hello").1
      = Except.ok ⟨"text", "ANSWER"⟩ := by
  constructor
  · decide
  · rfl

/-- Claim C3 as amended: on an agent constructed while no persisted
vector-store directory exists, handle_query called before any
ingest_document call returns the no-document text result for every query and
every capability set, invoking no capability at all. -/
theorem handle_query_no_ingest (caps : Caps) (q : String) :
    handle_query caps (initAgent false) q
      = (Except.ok ⟨"text", "No document has been ingested yet."⟩, []) := rfl

/-- Counterexample to claim C2 as stated: summarize_paper on an empty corpus
does not return a no-document message without invoking downstream
capabilities; it invokes the map-reduce generation capability (non-empty
trace) and returns that capability's output. -/
theorem strategies_empty_corpus_counterexample :
    (summarize_paper stubCaps stLoadedEmpty).2 ≠ [] ∧
    (summarize_paper stubCaps stLoadedEmpty).1 = Except.ok ⟨"text", "MAPRED"⟩ := by
  constructor
  · decide
  · rfl

/-- Claim C2 as amended: only summarize_abstract and extract_keywords guard
the empty corpus, returning the text result No document content available
without invoking any capability; summarize_paper invokes the map-reduce
generation capability even on an empty corpus, and answer_question invokes
retrieval whenever a vector store handle is present, regardless of the chunk
list. -/
theorem strategies_empty_corpus (caps : Caps) (vdb : Option ChromaIndex) :
    summarize_abstract caps ⟨vdb, []⟩
      = (Except.ok ⟨"text", "No document content available."⟩, []) ∧
    extract_keywords caps ⟨vdb, []⟩
      = (Except.ok ⟨"text", "No document content available."⟩, []) ∧
    (summarize_paper caps ⟨vdb, []⟩).2 = [Call.mapReduceSummarize []] ∧
    (∀ idx q, (answer_question caps ⟨some idx, []⟩ q).2 = [Call.retrieveAnswer idx q]) :=
  ⟨rfl, rfl, rfl, fun _ _ => rfl⟩

/-- Claim C1, evaluated at the failing input: sub-classification succeeds
with category summary, the dispatched map-reduce summarize call raises a
generation failure, and handle_query does not propagate that error — the
broad except clause catches it and falls back to answer_question, whose
answer is returned as a success. -/
theorem handle_query_strategy_error_fallback :
    handle_query capsSummaryFails stOneChunk "summarize this"
      = (Except.ok ⟨"text", "FALLBACK"⟩,
         [Call.classifyResearch "summarize this", Call.mapReduceSummarize ["D"],
          Call.retrieveAnswer (ChromaIndex.built ["D"]) "summarize this"]) := rfl

/-- Claim C4: ingesting a document whose extracted text is empty or
whitespace-only returns the empty-document text result, raises no
exception, and leaves the agent state (previously ingested corpus and
index) unchanged, for both supported file types. -/
theorem ingest_empty_text (caps : Caps) (st : ResearchAgentState) (path t : String)
    (hws : pyStripEmpty t = true) :
    (caps.extractPdf path = Except.ok t →
      ingest_document caps st path "pdf"
        = (⟨"text", "The document is empty."⟩, st, [Call.extractPdf path])) ∧
    (caps.extractDocx path = Except.ok t →
      ingest_document caps st path "docx"
        = (⟨"text", "The document is empty."⟩, st, [Call.extractDocx path])) := by
  constructor
  · intro he
    simp [ingest_document, ingestBody, ingestAfterExtract, he, hws]
  · intro he
    simp [ingest_document, ingestBody, ingestAfterExtract, he, hws]

/-- Witness for ingest_empty_text: a whitespace-only extraction leaves a
previously ingested corpus intact. -/
theorem ingest_empty_text_witness :
    pyStripEmpty "  \n\t " = true ∧
    ingest_document capsBlankDoc stOldDoc "f" "pdf"
      = (⟨"text", "The document is empty."⟩, stOldDoc, [Call.extractPdf "f"]) :=
  ⟨by decide, (ingest_empty_text capsBlankDoc stOldDoc "f" "  \n\t " (by decide)).1 rfl⟩

/-- Counterexample to claim C5 as stated: when the embed-and-index step
fails during re-ingestion, the resulting state is a visible partial update —
the chunk list already holds the new document while the index still holds
the previous one, so the chunk list and the index disagree about which
document is current. -/
theorem ingest_partial_update_counterexample :
    ((ingest_document capsIndexDown stOldDoc "f" "pdf").2.1).docs ≠ stOldDoc.docs ∧
    ((ingest_document capsIndexDown stOldDoc "f" "pdf").2.1).vector_db
      = stOldDoc.vector_db := by
  constructor
  · decide
  · rfl

/-- Claim C5 as amended: on successful ingestion the new corpus fully
supersedes the old one (both the chunk list and the index are replaced,
non-incrementally); but if indexing fails after chunking, the chunk list is
already replaced while the index keeps its prior value, so the update is not
atomic on the failure path. -/
theorem ingest_replacement (caps : Caps) (st : ResearchAgentState) (path t : String)
    (he : caps.extractPdf path = Except.ok t) (hne : pyStripEmpty t = false) :
    (caps.embedIndex (caps.splitText t) = Except.ok () →
      ingest_document caps st path "pdf"
        = (⟨"text", "Document ingested and ready for analysis."⟩,
           ⟨some (ChromaIndex.built (caps.splitText t)), caps.splitText t⟩,
           [Call.extractPdf path, Call.embedIndex (caps.splitText t)])) ∧
    (∀ e, caps.embedIndex (caps.splitText t) = Except.error e →
      ingest_document caps st path "pdf"
        = (⟨"text", "Error ingesting the document: " ++ errString e⟩,
           ⟨st.vector_db, caps.splitText t⟩,
           [Call.extractPdf path, Call.embedIndex (caps.splitText t)])) := by
  constructor
  · intro hidx
    simp [ingest_document, ingestBody, ingestAfterExtract, he, hne, hidx]
  · intro e hidx
    simp [ingest_document, ingestBody, ingestAfterExtract, he, hne, hidx]

/-- Witness for ingest_replacement: a successful re-ingestion replaces both
the chunk list and the index. -/
theorem ingest_replacement_witness :
    stubCaps.extractPdf "f" = Except.ok "hello world" ∧
    pyStripEmpty "hello world" = false ∧
    ingest_document stubCaps stOldDoc "f" "pdf"
      = (⟨"text", "Document ingested and ready for analysis."⟩,
         ⟨some (ChromaIndex.built ["hello world"]), ["hello world"]⟩,
         [Call.extractPdf "f", Call.embedIndex ["hello world"]]) :=
  ⟨rfl, by decide,
    (ingest_replacement stubCaps stOldDoc "f" "hello world" rfl (by decide)).1 rfl⟩

/-- Claim C8: on a corpus of at least five chunks, extract_keywords invokes
the keyword generation capability with context built from exactly the
space-joined concatenation of chunks 0 through 3 — the statement mentions
chunk 4 and the remaining chunks only to show they do not appear — and
renders the returned term list as a single comma-joined string. -/
theorem extract_keywords_context (caps : Caps) (vdb : Option ChromaIndex)
    (d0 d1 d2 d3 d4 : String) (rest : List String) :
    extract_keywords caps ⟨vdb, d0 :: d1 :: d2 :: d3 :: d4 :: rest⟩
      = ((caps.generateKeywords (String.intercalate " " [d0, d1, d2, d3])).map
          (fun ks => ⟨"text", String.intercalate ", " ks⟩),
         [Call.generateKeywords (String.intercalate " " [d0, d1, d2, d3])]) := rfl

/-- Claim C9: on a non-empty corpus, summarize_abstract issues a single
generation call whose context is the first chunk's text only, and its trace
contains no retrieval call. -/
theorem summarize_abstract_first_chunk (caps : Caps) (vdb : Option ChromaIndex)
    (d0 : String) (rest : List String) :
    summarize_abstract caps ⟨vdb, d0 :: rest⟩
      = ((caps.generateText d0).map (fun r => ⟨"text", r⟩), [Call.generateText d0]) ∧
    (∀ idx q, Call.retrieveAnswer idx q ∉ (summarize_abstract caps ⟨vdb, d0 :: rest⟩).2) := by
  refine ⟨rfl, fun idx q => ?_⟩
  simp [summarize_abstract]

theorem ingestAfterExtract_ok_rtype (caps : Caps) (st : ResearchAgentState)
    (t : String) (calls : List Call) (r : AgentReply)
    (st1 : ResearchAgentState) (calls1 : List Call)
    (h : ingestAfterExtract caps st t calls = (Except.ok r, st1, calls1)) :
    r.rtype = "text" := by
  unfold ingestAfterExtract at h
  cases hws : pyStripEmpty t with
  | true =>
    rw [hws] at h
    simp at h
    obtain ⟨h1, -⟩ := h
    subst h1
    rfl
  | false =>
    rw [hws] at h
    simp only [Bool.false_eq_true, if_false] at h
    cases hemb : caps.embedIndex (caps.splitText t) with
    | ok u =>
      simp only [hemb] at h
      simp at h
      obtain ⟨h1, -⟩ := h
      subst h1
      rfl
    | error e => simp only [hemb] at h; simp_all

theorem ingestBody_ok_rtype (caps : Caps) (st : ResearchAgentState)
    (path ftype : String) (r : AgentReply) (st1 : ResearchAgentState)
    (calls : List Call)
    (h : ingestBody caps st path ftype = (Except.ok r, st1, calls)) :
    r.rtype = "text" := by
  unfold ingestBody at h
  by_cases hp : ftype = "pdf"
  · rw [if_pos hp] at h
    cases hx : caps.extractPdf path with
    | error e => simp only [hx] at h; simp_all
    | ok t =>
      simp only [hx] at h
      exact ingestAfterExtract_ok_rtype caps st t _ r st1 calls h
  · rw [if_neg hp] at h
    by_cases hd : ftype = "docx"
    · rw [if_pos hd] at h
      cases hx : caps.extractDocx path with
      | error e => simp only [hx] at h; simp_all
      | ok t =>
        simp only [hx] at h
        exact ingestAfterExtract_ok_rtype caps st t _ r st1 calls h
    · rw [if_neg hd] at h
      simp at h
      obtain ⟨h1, -⟩ := h
      subst h1
      rfl

/-- Claim C10: ingest_document never raises — every internal failure,
including extraction and indexing errors, is caught and returned as a
result whose type field is text (with a string message). -/
theorem ingest_document_always_text (caps : Caps) (st : ResearchAgentState)
    (path ftype : String) :
    (ingest_document caps st path ftype).1.rtype = "text" := by
  rcases hb : ingestBody caps st path ftype with ⟨r, st1, calls⟩
  cases r with
  | ok a =>
    have ha := ingestBody_ok_rtype caps st path ftype a st1 calls hb
    simp [ingest_document, hb, ha]
  | error e => simp [ingest_document, hb]
